import Mathlib

/-!
Verification development for the mactrace core: a shallow embedding of the
reference resolver / event extractor (`lib/exporter.ts`) and the syscall
argument/result formatter (`lib/formatter.ts`), together with theorems
settling the specification's claims about them.

JavaScript numbers that can be `NaN` are embedded as `Option Int`
(`none` = `NaN`).  Every number the program computes is the value of an
integer-valued IEEE-754 binary64: `parseInt` results are exact integers
rounded to the nearest double (`roundNat53`), every double at least 2^52 is
an integer, and the program only compares these values against integer
constants and prints them.  `jsNumToString` implements `String(Number)`:
the exact decimal below 2^53, the shortest round-trip decimal above.
-/

namespace Mactrace

/-- JavaScript number that may be `NaN`: `none` stands for `NaN`.  The
integer is the exact value of the integer-valued double it embeds. -/
abbrev JsNum := Option Int

/-- Binary digit count of a natural number (0 for 0), with explicit fuel so
it reduces in the kernel; a decimal digit spans under four bits, so fuel
from the decimal length suffices. -/
def bitLenFuel : Nat → Nat → Nat
  | 0, _ => 0
  | fuel + 1, n => if n = 0 then 0 else bitLenFuel fuel (n / 2) + 1

/-- Binary digit count of a natural number. -/
def bitLen (n : Nat) : Nat := bitLenFuel (4 * (Nat.repr n).length + 4) n

/-- Decimal digit count of a natural number. -/
def decLen (n : Nat) : Nat := (Nat.repr n).length

/-- Round a natural number to the nearest integer-valued IEEE-754 binary64
(round half to even): exact up to 2^53, otherwise to the nearest multiple
of the magnitude's unit in the last place.  The double's exponent cap is
not modelled: a value large enough to overflow to `Infinity` can only
arise from absurdly long digit strings, and the program then only compares
it against constants below 2^64, where any huge stand-in and `Infinity`
behave alike (no such value is ever printed). -/
def roundNat53 (n : Nat) : Nat :=
  if n ≤ 2 ^ 53 then n
  else
    let ulp := 2 ^ (bitLen n - 53)
    let q := n / ulp
    let r := n % ulp
    if 2 * r < ulp then q * ulp
    else if 2 * r > ulp then (q + 1) * ulp
    else if q % 2 = 0 then q * ulp else (q + 1) * ulp

/-- The shortest round-trip decimal of an integer-valued double `n > 2^53`
(ECMA `ToString` applied to a Number: fewest significant digits, then the
candidate closest to the value, then the even one).  All candidates are
integers, since the rounding interval around `n` has width at least 2:
`lo4`/`hi4` are the interval's boundaries scaled by 4 (the gap below an
exact power of two is half an ulp), closed exactly when the mantissa is
even (a boundary value then rounds back to `n`). -/
def shortestRoundTrip (n : Nat) : Nat :=
  let ulp := 2 ^ (bitLen n - 53)
  let m := n / ulp
  let lo4 := if m = 2 ^ 52 then 4 * n - ulp else 4 * n - 2 * ulp
  let hi4 := 4 * n + 2 * ulp
  let closed := m % 2 = 0
  let inIv : Nat → Bool := fun d =>
    (lo4 < 4 * d || (closed && lo4 = 4 * d)) &&
    (4 * d < hi4 || (closed && 4 * d = hi4))
  let feasible : Nat → Bool := fun j =>
    let p := 10 ^ j
    let t := lo4 / (4 * p) * p
    inIv t || inIv (t + p) || inIv (t + 2 * p)
  let jmax := ((List.range (decLen n + 1)).filter feasible).foldl max 0
  let p := 10 ^ jmax
  let t := lo4 / (4 * p) * p
  let cands := ((List.range 25).map (fun i => t + i * p)).filter inIv
  let dist : Nat → Nat := fun d => if d ≤ n then n - d else d - n
  cands.foldl
    (fun acc d =>
      if dist d < dist acc then d
      else if dist acc < dist d then acc
      else if (d / p) % 2 = 0 then d else acc)
    (cands.headD n)

/-- JS `String(v)` on a number: `NaN` prints as `"NaN"`; an integer-valued
double prints as its exact decimal when its magnitude is at most 2^53 and
as the shortest round-trip decimal above that (all values printed by this
program are far below 10^21, so fixed notation always applies). -/
def jsNumToString (v : JsNum) : String :=
  match v with
  | none => "NaN"
  | some z =>
    let digits :=
      if z.natAbs ≤ 2 ^ 53 then z.natAbs else shortestRoundTrip z.natAbs
    if z < 0 then "-" ++ Nat.repr digits else Nat.repr digits

/-- Whitespace skipped by JS `parseInt`. -/
def isJsSpace (c : Char) : Bool :=
  c = ' ' || c = '\t' || c = '\n' || c = '\r'

/-- Value of a hexadecimal digit character, if any. -/
def hexDigitVal (c : Char) : Option Nat :=
  if '0' ≤ c ∧ c ≤ '9' then some (c.toNat - '0'.toNat)
  else if 'a' ≤ c ∧ c ≤ 'f' then some (c.toNat - 'a'.toNat + 10)
  else if 'A' ≤ c ∧ c ≤ 'F' then some (c.toNat - 'A'.toNat + 10)
  else none

/-- Value of a digit character in the given radix, if it is one. -/
def digitValIn (radix : Nat) (c : Char) : Option Nat :=
  match hexDigitVal c with
  | some v => if v < radix then some v else none
  | none => none

/-- Longest prefix of digits in the given radix, with the rest. -/
def takeDigitsIn (radix : Nat) : List Char → List Nat × List Char
  | [] => ([], [])
  | c :: cs =>
    match digitValIn radix c with
    | some v =>
      let p := takeDigitsIn radix cs
      (v :: p.1, p.2)
    | none => ([], c :: cs)

/-- The prelude of JS `parseInt(s, radix)`: skip whitespace, note an
optional sign, and for radix 16 strip an optional `0x`/`0X` marker.
Returns (negative?, remaining characters). -/
def parsePrelude (s : String) (radix : Nat) : Bool × List Char :=
  let cs0 := s.data.dropWhile isJsSpace
  let sgn : Bool × List Char :=
    match cs0 with
    | '-' :: rest => (true, rest)
    | '+' :: rest => (false, rest)
    | _ => (false, cs0)
  let cs1 :=
    if radix = 16 then
      match sgn.2 with
      | '0' :: 'x' :: rest => rest
      | '0' :: 'X' :: rest => rest
      | _ => sgn.2
    else sgn.2
  (sgn.1, cs1)

/-- JS `parseInt(s, radix)`: after the prelude, the longest run of digits of
the radix; `none` (= `NaN`) when no digit is found.  Trailing garbage is
ignored.  The mathematical value is rounded to the nearest IEEE-754 double
(`roundNat53`; the sign is applied afterwards, as rounding is symmetric). -/
def parseIntJs (s : String) (radix : Nat) : Option Int :=
  let p := parsePrelude s radix
  let ds := (takeDigitsIn radix p.2).1
  if ds.isEmpty then none
  else
    let n : Nat := roundNat53 (ds.foldl (fun acc d => acc * radix + d) 0)
    some (if p.1 then -(n : Int) else (n : Int))

/-- JS `s.startsWith(p)`. -/
def jsStartsWith (s p : String) : Bool := p.data.isPrefixOf s.data

/-- JS `s.endsWith(p)`. -/
def jsEndsWith (s p : String) : Bool := p.data.isSuffixOf s.data

/-- JS `s.split(" ")[0]`: the characters before the first space. -/
def splitSpaceHead (s : String) : String :=
  String.mk (s.data.takeWhile (fun c => c ≠ ' '))

/-- JS `s.replace(/, /g, repl)`: every `", "` occurrence replaced, scanning
left to right, replacements not rescanned. -/
def replCommaSpace (repl : List Char) : List Char → List Char
  | ',' :: ' ' :: t => repl ++ replCommaSpace repl t
  | c :: t => c :: replCommaSpace repl t
  | [] => []

/-- `parseHex` from `lib/formatter.ts`: strings starting with `0x` parse as
hexadecimal via `parseInt(s, 16)`, everything else as decimal via
`parseInt(s, 10)`. -/
def parseHex (s : String) : JsNum :=
  if jsStartsWith s "0x" then parseIntJs s 16 else parseIntJs s 10

/-- JS `hay.includes(need)`: substring test. -/
def hasSubAux : List Char → List Char → Bool
  | [], need => need.isEmpty
  | h :: t, need => need.isPrefixOf (h :: t) || hasSubAux t need

/-- JS `hay.includes(need)` on strings. -/
def jsIncludes (hay need : String) : Bool :=
  hasSubAux hay.data need.data

/-- JS `s.replace(pat, repl)` with a string pattern: replaces only the first
occurrence (list form; `pat` is assumed non-empty, as at every call site). -/
def replFirstAux (pat repl : List Char) : List Char → List Char
  | [] => []
  | h :: t =>
    if pat.isPrefixOf (h :: t) then repl ++ (h :: t).drop pat.length
    else h :: replFirstAux pat repl t

/-- JS `s.replace(pat, repl)` with a string pattern (first occurrence only). -/
def replaceFirst (s pat repl : String) : String :=
  String.mk (replFirstAux pat.data repl.data s.data)

/-- JS `s.trimEnd()`. -/
def jsTrimEnd (s : String) : String :=
  String.mk ((s.data.reverse.dropWhile isJsSpace).reverse)

/-- `pad` from `lib/formatter.ts`: right-align (`left = true`) or left-align
a string in a field of `len` characters. -/
def pad (s : String) (len : Nat) (left : Bool) : String :=
  if s.length ≥ len then s
  else
    let spaces := String.mk (List.replicate (len - s.length) ' ')
    if left then spaces ++ s else s ++ spaces

/-! ## The parsed XML document tree

`fast-xml-parser` is configured with `ignoreAttributes: false`,
`attributeNamePrefix: "@_"`, `textNodeName: "#text"` and
`parseAttributeValue: false`, so attribute values and text nodes are always
strings.  A parsed value is a string, an array, or an object whose
string-valued keys (`@_…` attributes and `#text`) are kept separately from
its element-valued keys (children). -/

/-- A value of the parsed XML document: JS string, array, or object.
Object string-valued entries (attributes `@_…` and `#text`) live in `attrs`;
element-valued entries (children) live in `children`. -/
inductive JVal where
  | str (s : String)
  | arr (items : List JVal)
  | obj (attrs : List (String × String)) (children : List (String × JVal))

/-- The reference index: a JS `Map<string, unknown>`; later `set`s win, which
the list realises by prepending and looking up the first match. -/
abbrev RefMap := List (String × JVal)

/-- JS `map.set(id, v)` (later duplicates overwrite earlier ones). -/
def mapSet (m : RefMap) (k : String) (v : JVal) : RefMap := (k, v) :: m

/-- JS `map.get(k)`. -/
def mapGet (m : RefMap) (k : String) : Option JVal := List.lookup k m

/-- JS property access `obj[k]` for an element-valued key: `undefined`
(`none`) on strings and arrays. -/
def childLookup (v : JVal) (k : String) : Option JVal :=
  match v with
  | .obj _ children => List.lookup k children
  | _ => none

/-- JS truthiness of a parsed value: only the empty string is falsy. -/
def jsFalsy (v : JVal) : Bool :=
  match v with
  | .str s => s = ""
  | _ => false

/-- JS `typeof v === "object"` (and non-null): arrays and objects. -/
def jsIsObject (v : JVal) : Bool :=
  match v with
  | .str _ => false
  | _ => true

mutual
/-- `buildRefMap` from `lib/exporter.ts`: recursively record `id → node` for
every node carrying an `@_id` attribute; recursion over `Object.values`
visits the attribute strings (where it is a no-op) and all children. -/
def buildRefMap : JVal → RefMap → RefMap
  | .str _, m => m
  | .arr items, m => buildRefMapList items m
  | .obj attrs children, m =>
    let m1 :=
      match List.lookup "@_id" attrs with
      | some id => mapSet m id (.obj attrs children)
      | none => m
    buildRefMapChildren children m1

/-- `buildRefMap` folded over the items of an array. -/
def buildRefMapList : List JVal → RefMap → RefMap
  | [], m => m
  | x :: xs, m => buildRefMapList xs (buildRefMap x m)

/-- `buildRefMap` folded over the child values of an object. -/
def buildRefMapChildren : List (String × JVal) → RefMap → RefMap
  | [], m => m
  | (_, v) :: xs, m => buildRefMapChildren xs (buildRefMap v m)
end

/-- `resolveValue` from `lib/exporter.ts`: non-objects are returned as they
are; an object carrying an `@_ref` attribute resolves to the indexed node
for that id, or to itself when the id is absent (`refMap.get(ref) ?? obj`);
the result is never chased further. -/
def resolveValue (v : JVal) (m : RefMap) : JVal :=
  match v with
  | .obj attrs children =>
    (match List.lookup "@_ref" attrs with
     | some r => (mapGet m r).getD (.obj attrs children)
     | none => .obj attrs children)
  | other => other

/-- `getFmt` from `lib/exporter.ts`: resolve, then read the `@_fmt`
attribute of the resolved object. -/
def getFmt (v : Option JVal) (m : RefMap) : Option String :=
  match v with
  | none => none
  | some x =>
    match resolveValue x m with
    | .obj attrs _ => List.lookup "@_fmt" attrs
    | _ => none

/-- `getText` from `lib/exporter.ts`: resolve, then a plain string is the
text, and an object yields its `#text` content or, failing that (`??`), its
`@_fmt` attribute. -/
def getText (v : Option JVal) (m : RefMap) : Option String :=
  match v with
  | none => none
  | some x =>
    match resolveValue x m with
    | .str s => some s
    | .obj attrs _ =>
      (match List.lookup "#text" attrs with
       | some t => some t
       | none => List.lookup "@_fmt" attrs)
    | .arr _ => none

/-! ## Event extraction (`exportTrace` in `lib/exporter.ts`)

`exportTrace` runs `xctrace export` and parses its XML; that I/O is outside
the core.  `extractEvents` below embeds its pure part: everything after
`parser.parse(dataXml)`, operating on the parsed tree. -/

/-- `TraceEvent` from `lib/exporter.ts`. `pid`/`tid` are optional JS numbers
(which may be `NaN` when the string fails to parse). -/
structure TraceEvent where
  timestamp : String
  duration : Option String
  syscall : String
  signature : String
  pid : Option JsNum
  tid : Option JsNum
  process : Option String
  result : Option String
  errno : Option String
  args : Option (List String)
deriving DecidableEq

/-- The syscall-name normalization `syscall.replace(/^[BM]SC_/, "")` from
`exportTrace`: strip a leading `BSC_` or `MSC_`, once; all other names are
unchanged. -/
def stripClassMarker (s : String) : String :=
  if jsStartsWith s "BSC_" || jsStartsWith s "MSC_" then s.drop 4 else s

/-- The `syscall-return` array scan in `exportTrace`: the first element with
a truthy `@_fmt` value wins. -/
def firstTruthyFmt : List JVal → RefMap → Option String
  | [], _ => none
  | e :: es, m =>
    match getFmt (some e) m with
    | some v => if v = "" then firstTruthyFmt es m else some v
    | none => firstTruthyFmt es m

/-- The `syscall-arg` loop in `exportTrace`: collect the truthy `@_fmt`
values, in order, skipping the rest. -/
def collectTruthyFmt : List JVal → RefMap → List String
  | [], _ => []
  | e :: es, m =>
    match getFmt (some e) m with
    | some v =>
      if v = "" then collectTruthyFmt es m else v :: collectTruthyFmt es m
    | none => collectTruthyFmt es m

/-- The document navigation of `exportTrace` (lines 122–127): reach the
truthy `node` element under `trace-query-result`, or fail. -/
def nodeOf (data : JVal) : Option JVal :=
  match childLookup data "trace-query-result" with
  | none => none
  | some qr =>
    if jsFalsy qr then none
    else
      match childLookup qr "node" with
      | none => none
      | some node => if jsFalsy node then none else some node

/-- The row list of `exportTrace` (lines 132–135): the truthy `row` child of
the node, wrapped in a singleton when it is not already an array. -/
def rowListOf (data : JVal) : List JVal :=
  match nodeOf data with
  | none => []
  | some node =>
    match childLookup node "row" with
    | none => []
    | some rows =>
      if jsFalsy rows then []
      else
        match rows with
        | .arr xs => xs
        | other => [other]

/-- The reference index of `exportTrace` (line 129): `buildRefMap(node)`. -/
def refMapOf (data : JVal) : RefMap :=
  match nodeOf data with
  | none => []
  | some node => buildRefMap node []

/-- The per-row body of the `exportTrace` loop (lines 140–217), for rows
that pass the `!row || typeof row !== "object"` guard. -/
def rowEvent (row : JVal) (m : RefMap) : TraceEvent :=
  let signature := (getFmt (childLookup row "formatted-label") m).getD ""
  let syscallEl := childLookup row "syscall"
  let syscallRaw :=
    ((getFmt syscallEl m).orElse (fun _ => getText syscallEl m)).getD "unknown"
  let timestamp := (getFmt (childLookup row "start-time") m).getD ""
  let duration := getFmt (childLookup row "duration") m
  let processEl := (childLookup row "process").map (fun p => resolveValue p m)
  let process := getFmt processEl m
  let pidEl := processEl.bind (fun p => childLookup p "pid")
  let pidStr := (getFmt pidEl m).orElse (fun _ => getText pidEl m)
  let pid : Option JsNum :=
    match pidStr with
    | some s => if s = "" then none else some (parseIntJs s 10)
    | none => none
  let threadEl := (childLookup row "thread").map (fun t => resolveValue t m)
  let tidEl := threadEl.bind (fun t => childLookup t "tid")
  let tidStr := (getFmt tidEl m).orElse (fun _ => getText tidEl m)
  let tid : Option JsNum :=
    match tidStr with
    | some s =>
      if s = "" then none else some (parseIntJs (replaceFirst s "0x" "") 16)
    | none => none
  let result : Option String :=
    match childLookup row "syscall-return" with
    | some (.arr els) => firstTruthyFmt els m
    | other => getFmt other m
  let errno : Option String :=
    match childLookup row "narrative" with
    | none => none
    | some n =>
      if jsFalsy n then none
      else
        let errnoEl := childLookup (resolveValue n m) "errno"
        (getFmt errnoEl m).orElse (fun _ => getText errnoEl m)
  let args : List String :=
    match childLookup row "syscall-arg" with
    | none => []
    | some a =>
      if jsFalsy a then []
      else
        match a with
        | .arr xs => collectTruthyFmt xs m
        | other => collectTruthyFmt [other] m
  { timestamp := timestamp
    duration := duration
    syscall := stripClassMarker syscallRaw
    signature := if signature = "" then stripClassMarker syscallRaw else signature
    pid := pid
    tid := tid
    process := process
    result := result
    errno := errno
    args := some args }

/-- The pure part of `exportTrace` in `lib/exporter.ts`: from the parsed
document to the ordered event list.  Rows failing the
`!row || typeof row !== "object"` guard are skipped (`continue`). -/
def extractEvents (data : JVal) : List TraceEvent :=
  match nodeOf data with
  | none => []
  | some node =>
    let m := buildRefMap node []
    match childLookup node "row" with
    | none => []
    | some rows =>
      if jsFalsy rows then []
      else
        let rowList :=
          match rows with
          | .arr xs => xs
          | other => [other]
        rowList.filterMap
          (fun r => if jsIsObject r then some (rowEvent r m) else none)

/-! ## Syscall argument decoding (`lib/formatter.ts`) -/

/-- JS `args[i]` on an array of strings. -/
def jsIdx (args : List String) (i : Nat) : Option String := args.get? i

/-- JS template interpolation of a possibly-`undefined` string:
`undefined` renders as the text `undefined`. -/
def sTpl (o : Option String) : String := o.getD "undefined"

/-- JS `x || d` on a possibly-`undefined` string: `undefined` and `""` fall
back to the default. -/
def jsOrS (o : Option String) (d : String) : String :=
  match o with
  | some s => if s = "" then d else s
  | none => d

/-- JS bitwise coercion of a number used as a flag word: the values decoded
here are small non-negative integers, and `NaN` coerces to `0`. -/
def jsBits (v : JsNum) : Nat :=
  match v with
  | none => 0
  | some n => n.toNat

/-- Modelled from the spec: `lib/syscalls.ts` is not under `src/`. §4.3
flag-set rendering: bitwise-decompose against the domain's ordered
(mask, name) table, join matched names with `|` in table order; a zero base
value renders as the domain's dedicated zero name. -/
def formatFlagSet (table : List (Nat × String)) (zeroName : String) (v : JsNum) : String :=
  let n := jsBits v
  if n = 0 then zeroName
  else
    let names := (table.filter (fun p => n &&& p.1 ≠ 0)).map Prod.snd
    if names.isEmpty then toString n else String.intercalate "|" names

/-- Modelled from the spec: the open-flags (mask, name) table of
`lib/syscalls.ts` (absent from `src/`); bit `0x2` maps to read-write, and
the zero value is the pure read-only access mode. -/
def oFlagsTable : List (Nat × String) :=
  [(0x1, "O_WRONLY"), (0x2, "O_RDWR"), (0x4, "O_NONBLOCK"), (0x8, "O_APPEND"),
   (0x200, "O_CREAT"), (0x400, "O_TRUNC"), (0x800, "O_EXCL"),
   (0x100000, "O_CLOEXEC")]

/-- Modelled from the spec: `formatOpenFlags` of `lib/syscalls.ts`. -/
def formatOpenFlags (v : JsNum) : String := formatFlagSet oFlagsTable "O_RDONLY" v

/-- Modelled from the spec: the memory-protection table of `lib/syscalls.ts`. -/
def protTable : List (Nat × String) :=
  [(0x1, "PROT_READ"), (0x2, "PROT_WRITE"), (0x4, "PROT_EXEC")]

/-- Modelled from the spec: `formatProtFlags` of `lib/syscalls.ts`. -/
def formatProtFlags (v : JsNum) : String := formatFlagSet protTable "PROT_NONE" v

/-- Modelled from the spec: the memory-mapping table of `lib/syscalls.ts`. -/
def mapTable : List (Nat × String) :=
  [(0x1, "MAP_SHARED"), (0x2, "MAP_PRIVATE"), (0x10, "MAP_FIXED"),
   (0x1000, "MAP_ANON")]

/-- Modelled from the spec: `formatMapFlags` of `lib/syscalls.ts`. -/
def formatMapFlags (v : JsNum) : String := formatFlagSet mapTable "0" v

/-- Modelled from the spec: the control-command (code, name) table of
`lib/syscalls.ts`. -/
def fcntlTable : List (Nat × String) :=
  [(1, "F_GETFD"), (2, "F_SETFD"), (3, "F_GETFL"), (4, "F_SETFL")]

/-- Modelled from the spec: `formatFcntlCmd` of `lib/syscalls.ts`: a
(code → name) lookup, unknown codes rendered numerically. -/
def formatFcntlCmd (v : JsNum) : String :=
  match List.lookup (jsBits v) fcntlTable with
  | some n => n
  | none => jsNumToString v

/-- JS comparison `v < n` where `v` may be `NaN` (always false on `NaN`). -/
def jsLtNum (v : JsNum) (n : Int) : Bool :=
  match v with
  | some a => a < n
  | none => false

/-- JS comparison `v > n` where `v` may be `NaN` (always false on `NaN`). -/
def jsGtNum (v : JsNum) (n : Int) : Bool :=
  match v with
  | some a => n < a
  | none => false

/-- JS comparison `v >= n` where `v` may be `NaN` (always false on `NaN`). -/
def jsGeNum (v : JsNum) (n : Int) : Bool :=
  match v with
  | some a => n ≤ a
  | none => false

/-- JS comparison `v <= n` where `v` may be `NaN` (always false on `NaN`). -/
def jsLeNum (v : JsNum) (n : Int) : Bool :=
  match v with
  | some a => a ≤ n
  | none => false

/-- JS strict equality `v === n` where `v` may be `NaN` (false on `NaN`). -/
def jsEqNum (v : JsNum) (n : Int) : Bool := v = some n

/-- `fd` from `lib/formatter.ts`: falsy argument renders as `?`; a parsed
value outside `[0, 0xFFFF]` renders as the raw string; otherwise (including
`NaN`, which fails both comparisons) as a tagged descriptor. -/
def fd (s : Option String) : String :=
  match s with
  | none => "?"
  | some str =>
    if str = "" then "?"
    else
      let val := parseHex str
      if jsLtNum val 0 || jsGtNum val 0xFFFF then str
      else "<fd:" ++ jsNumToString val ++ ">"

/-- `int` from `lib/formatter.ts`: falsy argument renders as `?`; a parsed
value in `[0, 0xFFFF]` renders as decimal; otherwise (including `NaN`) the
raw string. -/
def int (s : Option String) : String :=
  match s with
  | none => "?"
  | some str =>
    if str = "" then "?"
    else
      let val := parseHex str
      if jsGeNum val 0 && jsLeNum val 0xFFFF then jsNumToString val else str

/-! The per-syscall decoders of the `decoders` table.  Each template literal
`` `(${a}, ${b})` `` is embedded as `"(" ++ (a ++ ", " ++ b) ++ ")"`.
Decoders sharing one source shape share one definition below. -/

/-- Decoder shape `` `(${args[0]}, …, ${args[n-1]})` ``: the first `n`
positional arguments rendered raw (missing ones as `undefined`). -/
def rawArgs (n : Nat) (args : List String) : String :=
  "(" ++ (String.intercalate ", " ((List.range n).map (fun i => sTpl (jsIdx args i)))) ++ ")"

/-- The `open` decoder. -/
def openD (args : List String) : String :=
  "(" ++ (sTpl (jsIdx args 0) ++ ", "
    ++ formatOpenFlags (parseHex (jsOrS (jsIdx args 1) "0")) ++ ", "
    ++ int (jsIdx args 2)) ++ ")"

/-- The `openat` decoder: the `AT_FDCWD` sentinel is compared literally. -/
def openatD (args : List String) : String :=
  "(" ++ ((if jsIdx args 0 = some "0xfffffffffffffffe" then "AT_FDCWD"
           else fd (jsIdx args 0)) ++ ", "
    ++ sTpl (jsIdx args 1) ++ ", "
    ++ formatOpenFlags (parseHex (jsOrS (jsIdx args 2) "0")) ++ ", "
    ++ int (jsIdx args 3)) ++ ")"

/-- Decoder shape `` `(${fd(args[0])})` `` (close family, dup family). -/
def fdArgD (args : List String) : String :=
  "(" ++ (fd (jsIdx args 0)) ++ ")"

/-- Decoder shape `` `(${fd(args[0])}, ${args[1]}, ${int(args[2])})` ``
(read, write, connect, bind). -/
def fdRawIntD (args : List String) : String :=
  "(" ++ (fd (jsIdx args 0) ++ ", " ++ sTpl (jsIdx args 1) ++ ", "
    ++ int (jsIdx args 2)) ++ ")"

/-- Decoder shape of `pread`/`pwrite`. -/
def fdRawIntIntD (args : List String) : String :=
  "(" ++ (fd (jsIdx args 0) ++ ", " ++ sTpl (jsIdx args 1) ++ ", "
    ++ int (jsIdx args 2) ++ ", " ++ int (jsIdx args 3)) ++ ")"

/-- The `mmap` decoder. -/
def mmapD (args : List String) : String :=
  "(" ++ (sTpl (jsIdx args 0) ++ ", " ++ sTpl (jsIdx args 1) ++ ", "
    ++ formatProtFlags (parseHex (jsOrS (jsIdx args 2) "0")) ++ ", "
    ++ formatMapFlags (parseHex (jsOrS (jsIdx args 3) "0")) ++ ", "
    ++ fd (jsIdx args 4) ++ ", " ++ sTpl (jsIdx args 5)) ++ ")"

/-- The `mprotect` decoder. -/
def mprotectD (args : List String) : String :=
  "(" ++ (sTpl (jsIdx args 0) ++ ", " ++ sTpl (jsIdx args 1) ++ ", "
    ++ formatProtFlags (parseHex (jsOrS (jsIdx args 2) "0"))) ++ ")"

/-- The `madvise` decoder. -/
def madviseD (args : List String) : String :=
  "(" ++ (sTpl (jsIdx args 0) ++ ", " ++ sTpl (jsIdx args 1) ++ ", "
    ++ int (jsIdx args 2)) ++ ")"

/-- The `sys_fcntl` decoder (also dispatched for `fcntl`/`fcntl_nocancel`). -/
def sysFcntlD (args : List String) : String :=
  "(" ++ (fd (jsIdx args 0) ++ ", "
    ++ formatFcntlCmd (parseHex (jsOrS (jsIdx args 1) "0")) ++ ", "
    ++ jsOrS (jsIdx args 2) "0") ++ ")"

/-- The `dup2` decoder. -/
def dup2D (args : List String) : String :=
  "(" ++ (fd (jsIdx args 0) ++ ", " ++ fd (jsIdx args 1)) ++ ")"

/-- Decoder shape `` `(${fd(args[0])}, ${args[1]})` `` (fstat family). -/
def fdRawD (args : List String) : String :=
  "(" ++ (fd (jsIdx args 0) ++ ", " ++ sTpl (jsIdx args 1)) ++ ")"

/-- The `fstatat64` decoder. -/
def fstatat64D (args : List String) : String :=
  "(" ++ ((if jsIdx args 0 = some "0xfffffffffffffffe" then "AT_FDCWD"
           else fd (jsIdx args 0)) ++ ", "
    ++ sTpl (jsIdx args 1) ++ ", " ++ sTpl (jsIdx args 2) ++ ", "
    ++ int (jsIdx args 3)) ++ ")"

/-- The `getdirentries64` decoder. -/
def gde64D (args : List String) : String :=
  "(" ++ (fd (jsIdx args 0) ++ ", " ++ sTpl (jsIdx args 1) ++ ", "
    ++ int (jsIdx args 2) ++ ", " ++ sTpl (jsIdx args 3)) ++ ")"

/-- The `ioctl` decoder. -/
def ioctlD (args : List String) : String :=
  "(" ++ (fd (jsIdx args 0) ++ ", " ++ sTpl (jsIdx args 1) ++ ", "
    ++ jsOrS (jsIdx args 2) "0") ++ ")"

/-- The `socket` decoder. -/
def socketD (args : List String) : String :=
  "(" ++ (int (jsIdx args 0) ++ ", " ++ int (jsIdx args 1) ++ ", "
    ++ int (jsIdx args 2)) ++ ")"

/-- The `listen` decoder. -/
def listenD (args : List String) : String :=
  "(" ++ (fd (jsIdx args 0) ++ ", " ++ int (jsIdx args 1)) ++ ")"

/-- The `accept` decoder. -/
def acceptD (args : List String) : String :=
  "(" ++ (fd (jsIdx args 0) ++ ", " ++ sTpl (jsIdx args 1) ++ ", "
    ++ sTpl (jsIdx args 2)) ++ ")"

/-- The `sendto` decoder. -/
def sendtoD (args : List String) : String :=
  "(" ++ (fd (jsIdx args 0) ++ ", " ++ sTpl (jsIdx args 1) ++ ", "
    ++ int (jsIdx args 2) ++ ", " ++ int (jsIdx args 3) ++ ", "
    ++ sTpl (jsIdx args 4) ++ ", " ++ int (jsIdx args 5)) ++ ")"

/-- The `recvfrom` decoder. -/
def recvfromD (args : List String) : String :=
  "(" ++ (fd (jsIdx args 0) ++ ", " ++ sTpl (jsIdx args 1) ++ ", "
    ++ int (jsIdx args 2) ++ ", " ++ int (jsIdx args 3) ++ ", "
    ++ sTpl (jsIdx args 4) ++ ", " ++ sTpl (jsIdx args 5)) ++ ")"

/-- The `exit` decoder. -/
def exitD (args : List String) : String :=
  "(" ++ (jsOrS (jsIdx args 0) "0") ++ ")"

/-- The `faccessat` decoder: the sentinel branch keeps the raw string. -/
def faccessatD (args : List String) : String :=
  "(" ++ ((if jsIdx args 0 = some "0xfffffffffffffffe" then "AT_FDCWD"
           else sTpl (jsIdx args 0)) ++ ", "
    ++ sTpl (jsIdx args 1) ++ ", " ++ sTpl (jsIdx args 2) ++ ", "
    ++ jsOrS (jsIdx args 3) "0") ++ ")"

/-- The `guarded_open_np` decoder. -/
def guardedOpenD (args : List String) : String :=
  "(" ++ (sTpl (jsIdx args 0) ++ ", " ++ sTpl (jsIdx args 1) ++ ", "
    ++ sTpl (jsIdx args 2)
    ++ ", " ++ formatOpenFlags (parseHex (jsOrS (jsIdx args 3) "0"))) ++ ")"

/-- The `decoders` record of `lib/formatter.ts`: a syscall-name-keyed
table of argument decoders, in source order.  Entries written in the
source as `(args) => decoders.x(args)` appear as eta-expanded wrappers. -/
def decodersTable : List (String × (List String → String)) :=
  [("open", openD),
   ("openat", openatD),
   ("open_nocancel", (fun args => openD args)),
   ("openat_nocancel", (fun args => openatD args)),
   ("sys_close", fdArgD),
   ("close", fdArgD),
   ("close_nocancel", fdArgD),
   ("sys_close_nocancel", fdArgD),
   ("read", fdRawIntD),
   ("write", fdRawIntD),
   ("read_nocancel", (fun args => fdRawIntD args)),
   ("write_nocancel", (fun args => fdRawIntD args)),
   ("pread", fdRawIntIntD),
   ("pwrite", fdRawIntIntD),
   ("mmap", mmapD),
   ("mprotect", mprotectD),
   ("munmap", (rawArgs 2)),
   ("madvise", madviseD),
   ("sys_fcntl", sysFcntlD),
   ("fcntl", (fun args => sysFcntlD args)),
   ("fcntl_nocancel", (fun args => sysFcntlD args)),
   ("sys_dup", fdArgD),
   ("dup", fdArgD),
   ("dup2", dup2D),
   ("stat64", (rawArgs 2)),
   ("fstat64", fdRawD),
   ("lstat64", (rawArgs 2)),
   ("fstatat64", fstatat64D),
   ("stat", (rawArgs 2)),
   ("fstat", fdRawD),
   ("lstat", (rawArgs 2)),
   ("getdirentries64", gde64D),
   ("ioctl", ioctlD),
   ("socket", socketD),
   ("connect", fdRawIntD),
   ("bind", fdRawIntD),
   ("listen", listenD),
   ("accept", acceptD),
   ("sendto", sendtoD),
   ("recvfrom", recvfromD),
   ("execve", (rawArgs 3)),
   ("fork", (fun _ => "()")),
   ("vfork", (fun _ => "()")),
   ("exit", exitD),
   ("wait4", (rawArgs 4)),
   ("getpid", (fun _ => "()")),
   ("getppid", (fun _ => "()")),
   ("getuid", (fun _ => "()")),
   ("geteuid", (fun _ => "()")),
   ("getgid", (fun _ => "()")),
   ("getegid", (fun _ => "()")),
   ("bsdthread_create", (rawArgs 4)),
   ("bsdthread_terminate", (rawArgs 4)),
   ("thread_selfid", (fun _ => "()")),
   ("sigaction", (rawArgs 3)),
   ("sigprocmask", (rawArgs 3)),
   ("__pthread_kill", (rawArgs 2)),
   ("kqueue", (fun _ => "()")),
   ("kevent", (rawArgs 6)),
   ("kevent64", (rawArgs 6)),
   ("kevent_qos", (rawArgs 6)),
   ("sysctl", (rawArgs 6)),
   ("sysctlbyname", (rawArgs 5)),
   ("access", (rawArgs 2)),
   ("faccessat", faccessatD),
   ("getattrlist", (rawArgs 4)),
   ("fgetattrlist", (rawArgs 4)),
   ("setattrlist", (rawArgs 4)),
   ("getxattr", (rawArgs 6)),
   ("fgetxattr", (rawArgs 6)),
   ("listxattr", (rawArgs 4)),
   ("csops", (rawArgs 4)),
   ("csops_audittoken", (rawArgs 5)),
   ("proc_info", (rawArgs 6)),
   ("shared_region_check_np", (rawArgs 1)),
   ("getfsstat64", (rawArgs 3)),
   ("statfs64", (rawArgs 2)),
   ("fstatfs64", (rawArgs 2)),
   ("getentropy", (rawArgs 2)),
   ("guarded_open_np", guardedOpenD),
   ("mach_msg_trap", (rawArgs 4)),
   ("mach_msg", (rawArgs 4)),
   ("mach_vm_map_trap", (rawArgs 4)),
   ("mach_vm_allocate_trap", (rawArgs 4)),
   ("mach_vm_deallocate_trap", (rawArgs 3)),
   ("mach_port_deallocate_trap", (rawArgs 2)),
   ("task_self_trap", (fun _ => "()")),
   ("host_self_trap", (fun _ => "()")),
   ("thread_self_trap", (fun _ => "()")),
   ("mach_reply_port", (fun _ => "()")),
   ("semaphore_wait_trap", (rawArgs 1)),
   ("semaphore_signal_trap", (rawArgs 1)),
   ("semaphore_timedwait_trap", (rawArgs 3)),
   ("mk_timer_create", (fun _ => "()")),
   ("mk_timer_arm", (rawArgs 2)),
   ("mk_timer_cancel", (rawArgs 2)),
   ("mk_timer_destroy", (rawArgs 1)),
   ("psynch_mutexwait", (rawArgs 4)),
   ("psynch_mutexdrop", (rawArgs 4)),
   ("psynch_cvwait", (rawArgs 4)),
   ("psynch_cvsignal", (rawArgs 4)),
   ("psynch_cvbroad", (rawArgs 4)),
   ("ulock_wait", (rawArgs 4)),
   ("ulock_wait2", (rawArgs 5)),
   ("ulock_wake", (rawArgs 3)),
   ("workq_kernreturn", (rawArgs 4)),
   ("workq_open", (fun _ => "()")),
   ("bsdthread_ctl", (rawArgs 4))]

/-- Record lookup `decoders[name]`: exact-match dispatch. -/
def decoders (name : String) : Option (List String → String) :=
  List.lookup name decodersTable

/-- `defaultDecoder` from `lib/formatter.ts`: the raw argument list joined
with `", "`, parenthesized. -/
def defaultDecoder (args : List String) : String :=
  if args.length = 0 then "()"
  else "(" ++ (String.intercalate ", " args) ++ ")"

/-- The decoder dispatch of `formatEvent` (line 345):
`decoders[event.syscall] || defaultDecoder`, applied to the raw arguments.
(Decoders receive `event.result` as a second parameter in the source, but
none of them reads it.) -/
def decode (name : String) (args : List String) : String :=
  match decoders name with
  | some d => d args
  | none => defaultDecoder args

/-- `fdReturnSyscalls` from `lib/formatter.ts`. -/
def fdReturnSyscalls : List String :=
  ["open", "openat", "open_nocancel", "openat_nocancel",
   "socket", "accept", "accept_nocancel",
   "dup", "dup2", "sys_dup",
   "kqueue", "shm_open", "sem_open",
   "pipe", "socketpair",
   "guarded_open_np", "guarded_open_dprotected_np",
   "open_dprotected_np", "openbyid_np",
   "fileport_makefd"]

/-- `addrReturnSyscalls` from `lib/formatter.ts`. -/
def addrReturnSyscalls : List String :=
  ["mmap", "mremap_encrypted", "shmat"]

/-- `byteCountReturnSyscalls` from `lib/formatter.ts`. -/
def byteCountReturnSyscalls : List String :=
  ["read", "write", "pread", "pwrite",
   "read_nocancel", "write_nocancel",
   "pread_nocancel", "pwrite_nocancel",
   "readv", "writev", "readv_nocancel", "writev_nocancel",
   "sendto", "recvfrom", "sendmsg", "recvmsg",
   "sendto_nocancel", "recvfrom_nocancel",
   "getdirentries64", "getxattr", "fgetxattr", "listxattr"]

/-- The high error-band boundary `0xFFFFFFFF00000000` of `formatResult`. -/
def errBound : Int := 0xFFFFFFFF00000000

/-- `formatResult` from `lib/formatter.ts`. -/
def formatResult (syscall : String) (result : String) (hasError : Bool) : String :=
  let val := parseHex result
  if hasError then
    if jsEqNum val 0 || jsEqNum val (-1) || jsGtNum val errBound then "-1"
    else jsNumToString val
  else if jsLtNum val 0 || jsGtNum val errBound then result
  else if fdReturnSyscalls.contains syscall then "<fd:" ++ jsNumToString val ++ ">"
  else if addrReturnSyscalls.contains syscall then result
  else if byteCountReturnSyscalls.contains syscall then jsNumToString val
  else if jsEqNum val 0 then "0"
  else if jsGtNum val 0xFFFF then result
  else jsNumToString val

/-- The error classification of `formatEvent` (lines 356–361): a truthy
`errno` label that contains none of the four benign markers. -/
def isRealError (errno : Option String) : Bool :=
  match errno with
  | none => false
  | some e =>
    !(e = "") && !(jsIncludes e "success")
      && !(jsIncludes e "unknown error code")
      && !(jsIncludes e "reachable")
      && !(jsIncludes e "Operation not supported")

/-- The ANSI palette record `c` of `lib/formatter.ts`. -/
structure Colors where
  reset : String
  bold : String
  dim : String
  red : String
  green : String
  yellow : String
  blue : String
  magenta : String
  cyan : String
  white : String
  gray : String

/-- The color codes used when color is on. -/
def ansiColors : Colors :=
  { reset := "\x1b[0m", bold := "\x1b[1m", dim := "\x1b[2m",
    red := "\x1b[31m", green := "\x1b[32m", yellow := "\x1b[33m",
    blue := "\x1b[34m", magenta := "\x1b[35m", cyan := "\x1b[36m",
    white := "\x1b[37m", gray := "\x1b[90m" }

/-- The all-empty palette used when color is off. -/
def noColors : Colors :=
  { reset := "", bold := "", dim := "", red := "", green := "", yellow := "",
    blue := "", magenta := "", cyan := "", white := "", gray := "" }

/-- Maximal leading digit run of a character list, with the rest. -/
def takeDigitsRev (cs : List Char) : List Char × List Char :=
  (cs.takeWhile Char.isDigit, cs.dropWhile Char.isDigit)

/-- The timestamp regex `/(\d+)\.(\d+)\.(\d+)$/` of `formatEvent`: when the
string ends in `digits.digits.digits`, return the first two capture groups.
The anchored leftmost match makes the trailing two digit runs the segments
between the string's last two dots and the first group the maximal digit
run before them. -/
def matchTs (ts : String) : Option (String × String) :=
  let r := ts.data.reverse
  let p3 := takeDigitsRev r
  match p3.1, p3.2 with
  | [], _ => none
  | _ :: _, '.' :: r2 =>
    let p2 := takeDigitsRev r2
    (match p2.1, p2.2 with
     | [], _ => none
     | _ :: _, '.' :: r4 =>
       let p1 := takeDigitsRev r4
       (match p1.1 with
        | [] => none
        | g1 => some (String.mk g1.reverse, String.mk p2.1.reverse))
     | _, _ => none)
  | _, _ => none

/-- `formatEvent` from `lib/formatter.ts`, with the color option supplied
explicitly (the `options.color ?? process.stderr.isTTY` default is the
caller's concern; every call in `index.ts` passes it). -/
def formatEvent (event : TraceEvent) (color : Bool) : String :=
  let col := if color then ansiColors else noColors
  let ts :=
    match matchTs event.timestamp with
    | some g => g.1 ++ "." ++ g.2
    | none => event.timestamp
  let dur :=
    match event.duration with
    | none => ""
    | some d => replaceFirst d " " ""
  let procName :=
    match event.process with
    | none => "?"
    | some p =>
      let h := (splitSpaceHead p).take 10
      if h = "" then "?" else h
  let pid : Int :=
    match event.pid with
    | some (some n) => n
    | _ => 0
  let proc := procName ++ "/" ++ jsNumToString (some pid)
  let decodedArgs := decode event.syscall (event.args.getD [])
  let da1 :=
    if jsStartsWith decodedArgs "(" then
      col.dim ++ "(" ++ col.reset ++ decodedArgs.drop 1
    else decodedArgs
  let da2 :=
    if jsEndsWith da1 ")" then da1.dropRight 1 ++ (col.dim ++ ")" ++ col.reset)
    else da1
  let da3 := String.mk (replCommaSpace (col.dim ++ ", " ++ col.reset).data da2.data)
  let realErr := isRealError event.errno
  let result :=
    match event.result with
    | none => ""
    | some res =>
      if res = "" then ""
      else
        let formattedVal := formatResult event.syscall res realErr
        if realErr then
          col.red ++ "= " ++ formattedVal ++ " " ++ sTpl event.errno ++ col.reset
        else col.dim ++ "= " ++ formattedVal ++ col.reset
  let tsCol := col.gray ++ pad ts 6 true ++ col.reset
  let durCol := col.yellow ++ pad dur 9 true ++ col.reset
  let procCol := col.cyan ++ pad proc 16 false ++ col.reset
  let syscallCol :=
    if realErr then col.bold ++ col.red ++ event.syscall ++ col.reset
    else col.bold ++ event.syscall ++ col.reset
  let callCol := syscallCol ++ da3
  jsTrimEnd (tsCol ++ " " ++ durCol ++ " " ++ procCol ++ " " ++ callCol ++ " " ++ result)

/-- `formatEvents` from `lib/formatter.ts`. -/
def formatEvents (events : List TraceEvent) (color : Bool) : List String :=
  events.map (fun e => formatEvent e color)

/-! ## Auxiliary notions and concrete inputs used by the theorems -/

/-- Spec-side notion for the implicit parsing claim: the string has a
parseable leading digit — after the `parseInt` prelude (whitespace, sign
and, for `0x` strings, the marker), the first character is a digit of the
radix `parseHex` selects. -/
def hasLeadingDigit (s : String) : Bool :=
  let radix := if jsStartsWith s "0x" then 16 else 10
  match (parsePrelude s radix).2 with
  | c :: _ => (digitValIn radix c).isSome
  | [] => false

/-- The raw syscall name read from a row (`getFmt ?? getText ?? "unknown"`),
before the class-marker normalization. -/
def rawSyscallName (row : JVal) (m : RefMap) : String :=
  ((getFmt (childLookup row "syscall") m).orElse
    (fun _ => getText (childLookup row "syscall") m)).getD "unknown"

/-- A concrete event whose error label is a real error and whose raw result
is the documented `-1` sentinel `0x0`. -/
def enoentEvent : TraceEvent :=
  { timestamp := "00:05.123.456", duration := some "12.50 us",
    syscall := "open", signature := "open(0x1a2b)", pid := some (some 42),
    tid := none, process := some "cat (42)", result := some "0x0",
    errno := some "ENOENT no such file or directory",
    args := some ["0x1a2b", "0x0", "0x1b6"] }

/-- A document whose result table holds exactly one row, parsed as a plain
string (as an element with only text content parses). -/
def strRowDoc : JVal :=
  .obj [] [("trace-query-result",
    .obj [] [("node", .obj [] [("row", .str "x")])])]

/-- A small well-formed document: one row whose process is reached through
an id/ref indirection. -/
def sampleDoc : JVal :=
  .obj [] [("trace-query-result", .obj [] [("node", .obj []
    [("process", .obj [("@_id", "5"), ("@_fmt", "cat (42)")]
       [("pid", .obj [("@_fmt", "42")] [])]),
     ("row", .arr [.obj []
       [("syscall", .obj [("@_fmt", "BSC_open")] []),
        ("start-time", .obj [("@_fmt", "00:05.123.456")] []),
        ("process", .obj [("@_ref", "5")] []),
        ("syscall-arg", .arr [.obj [("@_fmt", "0x1a2b")] []]),
        ("syscall-return", .obj [("@_fmt", "0x3")] [])]])])])]

/-! ## Helper lemmas -/

theorem containsMem {s : String} {l : List String}
    (h : l.contains s = true) : s ∈ l := by
  have h2 : l.elem s = true := h
  exact List.elem_iff.mp h2

theorem notContainsMem {s : String} {l : List String}
    (h : l.contains s = false) : s ∉ l := by
  intro hm
  have h2 : l.contains s = true := List.elem_iff.mpr hm
  rw [h] at h2
  exact Bool.false_ne_true h2

theorem fd_addr_disjoint (s : String)
    (h : addrReturnSyscalls.contains s = true) :
    fdReturnSyscalls.contains s = false := by
  have hm : s ∈ addrReturnSyscalls := containsMem h
  fin_cases hm <;> decide

theorem byte_fd_disjoint (s : String)
    (h : byteCountReturnSyscalls.contains s = true) :
    fdReturnSyscalls.contains s = false := by
  have hm : s ∈ byteCountReturnSyscalls := containsMem h
  fin_cases hm <;> decide

theorem byte_addr_disjoint (s : String)
    (h : byteCountReturnSyscalls.contains s = true) :
    addrReturnSyscalls.contains s = false := by
  have hm : s ∈ byteCountReturnSyscalls := containsMem h
  fin_cases hm <;> decide

theorem jsNumToString_small (n : Int) (h0 : 0 ≤ n) (h : n ≤ 2 ^ 53) :
    jsNumToString (some n) = toString n := by
  cases n with
  | ofNat m =>
    have hm : (Int.ofNat m : Int).natAbs = m := rfl
    have hle : m ≤ 2 ^ 53 := by omega
    have hneg : ¬ (Int.ofNat m : Int) < 0 := by omega
    simp only [jsNumToString, hm, if_pos hle, if_neg hneg]
    rfl
  | negSucc m => exact absurd h0 (by rw [Int.negSucc_eq]; omega)

theorem takeDigitsIn_fst_nil (radix : Nat) (cs : List Char) :
    (takeDigitsIn radix cs).1 = [] ↔ cs.head?.bind (digitValIn radix) = none := by
  cases cs with
  | nil => simp [takeDigitsIn]
  | cons c t =>
    simp only [takeDigitsIn, List.head?, Option.bind_some]
    cases h : digitValIn radix c <;> simp [h]

/-! ## Claim theorems -/

/-- C5: resolving a node that carries no reference attribute returns it
unchanged (non-object values included); resolving a node whose reference
names an id present in the index returns the indexed node after exactly one
hop — whatever that node is, a further reference included, it is not chased;
a reference to an id absent from the index returns the node itself; and
`resolveValue` is a total function, so resolution never raises. -/
theorem resolveValue_one_hop (attrs : List (String × String))
    (children : List (String × JVal)) (m : RefMap) :
    (List.lookup "@_ref" attrs = none →
      resolveValue (.obj attrs children) m = .obj attrs children)
    ∧ (∀ r t, List.lookup "@_ref" attrs = some r → mapGet m r = some t →
      resolveValue (.obj attrs children) m = t)
    ∧ (∀ r, List.lookup "@_ref" attrs = some r → mapGet m r = none →
      resolveValue (.obj attrs children) m = .obj attrs children)
    ∧ (∀ s, resolveValue (.str s) m = .str s)
    ∧ (∀ xs, resolveValue (.arr xs) m = .arr xs) := by
  refine ⟨fun h => ?_, fun r t h1 h2 => ?_, fun r h1 h2 => ?_,
    fun s => rfl, fun xs => rfl⟩
  · simp [resolveValue, h]
  · simp [resolveValue, h1, h2]
  · simp only [resolveValue, h1, h2, Option.getD_none]

/-- C10: numeric parsing takes the longest numeric prefix — a string
starting with `0x` parses as hexadecimal, any other as decimal, trailing
non-numeric characters are silently ignored (`"12abc"` parses as 12 and is
rendered as a number by `int`); a string parses to a non-number exactly
when it has no parseable leading digit; and on such a string the descriptor
helper's range check does not reject, so `fd` renders `<fd:NaN>` rather
than the raw string. -/
theorem parseHex_longest_numeric_prefix :
    parseHex "0x1f" = some 31
    ∧ parseHex "1f" = some 1
    ∧ parseHex "12abc" = some 12
    ∧ int (some "12abc") = "12"
    ∧ (∀ s : String, parseHex s = none ↔ hasLeadingDigit s = false)
    ∧ (∀ s : String, s ≠ "" → parseHex s = none → fd (some s) = "<fd:NaN>") := by
  refine ⟨by decide, by decide, by decide, by decide, fun s => ?_,
    fun s hne hp => ?_⟩
  · unfold parseHex parseIntJs hasLeadingDigit
    by_cases h : jsStartsWith s "0x" = true
    · simp only [h, if_true, if_pos]
      cases hc : (parsePrelude s 16).2 with
      | nil => simp [takeDigitsIn]
      | cons c t =>
        cases hd : digitValIn 16 c <;>
          simp [takeDigitsIn, hd, takeDigitsIn_fst_nil]
    · simp only [h, if_false, Bool.false_eq_true, if_neg, not_false_iff]
      cases hc : (parsePrelude s 10).2 with
      | nil => simp [takeDigitsIn]
      | cons c t =>
        cases hd : digitValIn 10 c <;>
          simp [takeDigitsIn, hd, takeDigitsIn_fst_nil]
  · simp [fd, hne, hp, jsLtNum, jsGtNum, jsNumToString]

/-- C4 counterexample: a missing trailing argument of the `read` decoder is
interpolated directly and renders as the substitute text `undefined`, not as
the `?` placeholder; and the unparseable numeric string `"zz"` renders
through `fd` as `<fd:NaN>`, not as the original raw string. -/
theorem decoder_missing_arg_renders_undefined :
    decode "read" ["0x3"] = "(<fd:3>, undefined, ?)"
    ∧ decode "read" ["0x3"] ≠ "(<fd:3>, ?, ?)"
    ∧ fd (some "zz") = "<fd:NaN>"
    ∧ ("<fd:NaN>" : String) ≠ "zz" := by decide

/-- C4 amended: arguments that are missing (or empty) when they reach the
`fd`/`int` helpers render as the `?` placeholder; missing arguments
interpolated directly render as `undefined` (and `|| "0"` positions as
`0`); an unparseable numeric argument renders as the original raw string in
`int`, but as `<fd:NaN>` in `fd`. -/
theorem helper_fallbacks :
    fd none = "?" ∧ int none = "?" ∧ fd (some "") = "?" ∧ int (some "") = "?"
    ∧ (∀ s, s ≠ "" → parseHex s = none →
        int (some s) = s ∧ fd (some s) = "<fd:NaN>") := by
  refine ⟨rfl, rfl, rfl, rfl, fun s hne hp => ⟨?_, ?_⟩⟩
  · simp [int, hne, hp, jsGeNum, jsLeNum]
  · simp [fd, hne, hp, jsLtNum, jsGtNum, jsNumToString]

/-- C8 counterexample: `AB_` is a two-letter uppercase class marker followed
by an underscore, yet `stripClassMarker` leaves `AB_x` unchanged instead of
stripping it to `x`; conversely `BSC_read` does not begin with a two-letter
marker (its marker has three letters), yet it is changed to `read`. -/
theorem class_marker_counterexample :
    stripClassMarker "AB_x" = "AB_x" ∧ ("AB_x" : String) ≠ "x"
    ∧ stripClassMarker "BSC_read" = "read"
    ∧ ("BSC_read" : String) ≠ "read" := by decide

/-- C8 amended: the extractor normalizes every row's syscall name with
`stripClassMarker` before the event (and hence every decoder lookup and
display, which use the event's name) sees it; the marker stripped is
exactly a leading `BSC_` or `MSC_` (the three-letter BSD / Mach class
markers followed by an underscore), removed once; all other names are left
unchanged. -/
theorem class_marker_amended :
    (∀ row m, (rowEvent row m).syscall = stripClassMarker (rawSyscallName row m))
    ∧ (∀ s, jsStartsWith s "BSC_" = true → stripClassMarker s = s.drop 4)
    ∧ (∀ s, jsStartsWith s "MSC_" = true → stripClassMarker s = s.drop 4)
    ∧ (∀ s, jsStartsWith s "BSC_" = false → jsStartsWith s "MSC_" = false →
        stripClassMarker s = s) := by
  refine ⟨fun row m => rfl, fun s h => ?_, fun s h => ?_, fun s h1 h2 => ?_⟩
  · simp [stripClassMarker, h]
  · simp [stripClassMarker, h]
  · simp [stripClassMarker, h1, h2]

/-- C2: for a non-error result whose parsed value (the raw string parsed
and rounded to the nearest IEEE-754 double) is non-negative and not in the
high error band, `formatResult` classifies by name-set membership:
descriptor-returning names yield the tagged descriptor `<fd:N>` with `N`
printed as JS `String()` prints the parsed value, address-returning names
the raw string unchanged, byte-count-returning names the parsed value's
decimal (`String()` again, the exact decimal for every value below 2^53);
names in none of the sets render zero as `"0"`, values above 65535 as the
raw string, and every other value as its exact decimal. -/
theorem formatResult_name_sets (s r : String) (n : Int)
    (hp : parseHex r = some n) (h0 : 0 ≤ n) (hb : n ≤ errBound) :
    (fdReturnSyscalls.contains s = true →
      formatResult s r false = "<fd:" ++ jsNumToString (some n) ++ ">")
    ∧ (addrReturnSyscalls.contains s = true → formatResult s r false = r)
    ∧ (byteCountReturnSyscalls.contains s = true →
      formatResult s r false = jsNumToString (some n))
    ∧ (fdReturnSyscalls.contains s = false →
       addrReturnSyscalls.contains s = false →
       byteCountReturnSyscalls.contains s = false →
       ((n = 0 → formatResult s r false = "0")
        ∧ (65535 < n → formatResult s r false = r)
        ∧ (n ≠ 0 → n ≤ 65535 → formatResult s r false = toString n))) := by
  have hlt : jsLtNum (some n) 0 = false := by
    simp only [jsLtNum]
    exact decide_eq_false (not_lt.mpr h0)
  have hgt : jsGtNum (some n) errBound = false := by
    simp only [jsGtNum]
    exact decide_eq_false (not_lt.mpr hb)
  refine ⟨fun hfd => ?_, fun ha => ?_, fun hbyte => ?_,
    fun f1 f2 f3 => ⟨fun hz => ?_, fun hgt65 => ?_, fun hnz hle => ?_⟩⟩
  · simp [formatResult, hp, hlt, hgt, containsMem hfd]
  · simp [formatResult, hp, hlt, hgt, containsMem ha,
      notContainsMem (fd_addr_disjoint s ha)]
  · simp [formatResult, hp, hlt, hgt, containsMem hbyte,
      notContainsMem (byte_fd_disjoint s hbyte),
      notContainsMem (byte_addr_disjoint s hbyte)]
  · subst hz
    simp [formatResult, hp, hlt, hgt, notContainsMem f1, notContainsMem f2,
      notContainsMem f3, jsEqNum]
  · have heq0 : jsEqNum (some n) 0 = false := by
      simp only [jsEqNum]
      exact decide_eq_false (by simpa using (by omega : ¬ n = 0))
    have h65 : jsGtNum (some n) 65535 = true := by
      simp only [jsGtNum]
      exact decide_eq_true hgt65
    simp [formatResult, hp, hlt, hgt, notContainsMem f1, notContainsMem f2,
      notContainsMem f3, heq0, h65]
  · have heq0 : jsEqNum (some n) 0 = false := by
      simp only [jsEqNum]
      exact decide_eq_false (by simpa using hnz)
    have h65 : jsGtNum (some n) 65535 = false := by
      simp only [jsGtNum]
      exact decide_eq_false (not_lt.mpr hle)
    have hsmall : jsNumToString (some n) = toString n :=
      jsNumToString_small n h0 (by omega)
    simp [formatResult, hp, hlt, hgt, notContainsMem f1, notContainsMem f2,
      notContainsMem f3, heq0, h65, hsmall]

/-- C2 witness: `open` is in the descriptor-returning set and
`formatResult("open", "0x3", false)` yields the tagged descriptor; `read`
is in the byte-count-returning set and `formatResult("read", "0x8f5",
false)` yields the parsed decimal `2293`. -/
theorem formatResult_name_sets_witness :
    formatResult "open" "0x3" false = "<fd:3>"
    ∧ formatResult "read" "0x8f5" false = "2293" := by
  constructor
  · have h := (formatResult_name_sets "open" "0x3" 3 (by decide) (by decide)
      (by decide)).1 (by decide)
    exact h.trans (by decide)
  · have h := (formatResult_name_sets "read" "0x8f5" 2293 (by decide)
      (by decide) (by decide)).2.2.1 (by decide)
    exact h.trans (by decide)

theorem filterMap_guard {α β : Type} (p : α → Bool) (f : α → β) (l : List α) :
    l.filterMap (fun r => if p r then some (f r) else none)
      = (l.filter p).map f := by
  induction l with
  | nil => rfl
  | cons h t ih =>
    by_cases hp : p h = true <;>
      simp [List.filterMap_cons, List.filter_cons, hp, ih]

/-- C1 counterexample: a document whose result table holds exactly one row,
parsed as a plain string, yields no event — the row list has length 1 but
`extractEvents` returns 0 events, so extraction does not produce one
`TraceEvent` per row. -/
theorem extract_drops_string_row :
    (rowListOf strRowDoc).length = 1
    ∧ (extractEvents strRowDoc).length = 0 := by decide

/-- C1 amended: `extractEvents` yields exactly one event per object-shaped
row (arrays included), in input order — the object rows of the row list
mapped through the per-row extractor over the document's reference index,
never reordered or deduplicated; rows parsed as plain strings fail the
loop's `!row || typeof row !== "object"` guard and are skipped; and an
object row lacking a syscall element still yields an event, with the
syscall name `unknown`. -/
theorem extract_one_event_per_object_row :
    (∀ data, extractEvents data
      = ((rowListOf data).filter jsIsObject).map
          (fun r => rowEvent r (refMapOf data)))
    ∧ (∀ data, (extractEvents data).length
      = ((rowListOf data).filter jsIsObject).length)
    ∧ (∀ row m, childLookup row "syscall" = none →
        (rowEvent row m).syscall = "unknown") := by
  have key : ∀ data, extractEvents data
      = ((rowListOf data).filter jsIsObject).map
          (fun r => rowEvent r (refMapOf data)) := by
    intro data
    unfold extractEvents rowListOf refMapOf
    cases hn : nodeOf data with
    | none => rfl
    | some node =>
      cases hr : childLookup node "row" with
      | none => simp [hr]
      | some rows =>
        by_cases hf : jsFalsy rows = true
        · simp [hr, hf]
        · cases rows <;> simp [hr, hf, filterMap_guard]
  refine ⟨key, fun data => by rw [key data]; simp, fun row m h => ?_⟩
  simp [rowEvent, h, getFmt, getText, stripClassMarker, jsStartsWith]

set_option maxRecDepth 100000 in
/-- C7: the renderer classifies an event as a real error exactly when an
error label is present (non-empty) and contains none of the four benign
markers (the success marker, the unknown-error-code marker, the
reachability marker, and `Operation not supported`); the label `success` is
never a real error; `ENOENT no such file or directory` always is, and an
event carrying it renders in error style — bold red syscall name, red
result segment with the error label appended after the formatted value, and
`-1` as the numeric part for the documented sentinel raw result `0x0`. -/
theorem real_error_classification :
    (∀ e : Option String, isRealError e = true ↔
      ∃ s, e = some s ∧ s ≠ ""
        ∧ jsIncludes s "success" = false
        ∧ jsIncludes s "unknown error code" = false
        ∧ jsIncludes s "reachable" = false
        ∧ jsIncludes s "Operation not supported" = false)
    ∧ isRealError (some "success") = false
    ∧ isRealError (some "ENOENT no such file or directory") = true
    ∧ formatEvent enoentEvent true
      = "\x1b[90m05.123\x1b[0m \x1b[33m  12.50us\x1b[0m \x1b[36mcat/42          \x1b[0m \x1b[1m\x1b[31mopen\x1b[0m\x1b[2m(\x1b[0m0x1a2b\x1b[2m, \x1b[0mO_RDONLY\x1b[2m, \x1b[0m438\x1b[2m)\x1b[0m \x1b[31m= -1 ENOENT no such file or directory\x1b[0m" := by
  refine ⟨fun e => ?_, by decide, by decide, by decide⟩
  cases e with
  | none => simp [isRealError]
  | some s =>
    simp only [isRealError, Bool.and_eq_true, Bool.not_eq_true',
      Option.some.injEq, decide_eq_false_iff_not, ne_eq]
    constructor
    · rintro ⟨⟨⟨⟨h1, h2⟩, h3⟩, h4⟩, h5⟩
      exact ⟨s, rfl, h1, h2, h3, h4, h5⟩
    · rintro ⟨s2, rfl, h1, h2, h3, h4, h5⟩
      exact ⟨⟨⟨⟨h1, h2⟩, h3⟩, h4⟩, h5⟩

/-- C9: the extract-then-render pipeline is a pure, deterministic function
of the parsed document and the color flag — two identical documents under
identical options yield identical event sequences and identical rendered
lines. -/
theorem pipeline_deterministic (d1 d2 : JVal) (c1 c2 : Bool)
    (hd : d1 = d2) (hc : c1 = c2) :
    extractEvents d1 = extractEvents d2
    ∧ formatEvents (extractEvents d1) c1 = formatEvents (extractEvents d2) c2 := by
  subst hd
  subst hc
  exact ⟨rfl, rfl⟩

/-- C9 witness: the pipeline on a concrete document, color on, twice. -/
theorem pipeline_deterministic_witness :
    extractEvents sampleDoc = extractEvents sampleDoc
    ∧ formatEvents (extractEvents sampleDoc) true
      = formatEvents (extractEvents sampleDoc) true :=
  pipeline_deterministic sampleDoc sampleDoc true true rfl rfl

end Mactrace
